import Mathlib

/-!
Verification of the DNA-disease-risk-prediction repository.

The development shallowly embeds the two Python source files:

* `train_model.py` — the `DNASequenceClassifier` class: the one-hot sequence
  encoder `one_hot_encode_sequence`, and the `evaluate` / `predict` /
  `save_model` operations with their trained-state checks.
* `check_model.py` — the bootstrap `check_and_create_model` /
  `create_simple_model` pair, modelled over an explicit state of the
  `models/` directory.

External-framework calls (keras model inference, tensorflowjs export,
`json.load`) are modelled as parameters or as abstract effects on the
directory state, following the repository's spec for what those calls
produce.  Machine integers of the encoding are exact here (the matrix
entries are only 0 and 1), so rows are plain `List Int`.
-/

namespace DNA

/-- Embeds Python `sequence.upper()`: uppercase every character
(`Char.toUpper` is the ASCII uppercase map, which is the behaviour the
encoder relies on for the a/t/c/g alphabet). -/
def pyUpper (s : String) : String := String.mk (s.data.map Char.toUpper)

/-- Embeds the membership test `base in 'ATCG'` of
`one_hot_encode_sequence` (train_model.py line 25). -/
def isValidBase (c : Char) : Bool := c == 'A' || c == 'T' || c == 'C' || c == 'G'

/-- The dict `mapping` of `one_hot_encode_sequence`
(train_model.py lines 19-22); `none` plays the role of a missing key. -/
def mapping (c : Char) : Option (List Int) :=
  if c == 'A' then some [1, 0, 0, 0]
  else if c == 'T' then some [0, 1, 0, 0]
  else if c == 'C' then some [0, 0, 1, 0]
  else if c == 'G' then some [0, 0, 0, 1]
  else none

/-- The all-zero row appended for `'N'` or other characters
(train_model.py line 39). -/
def zeroRow : List Int := [0, 0, 0, 0]

/-- One loop iteration of the encoding loop (train_model.py lines 35-39):
`mapping[base] if base in mapping else [0, 0, 0, 0]`. -/
def encodeBase (c : Char) : List Int := (mapping c).getD zeroRow

/-- Line 25 of train_model.py:
`''.join([base for base in sequence.upper() if base in 'ATCG'])`. -/
def filteredSeq (s : String) : List Char := (pyUpper s).data.filter isValidBase

/-- Lines 27-31 of train_model.py: right-pad with `'N'` to length `L`,
or truncate to the first `L` characters. -/
def padTrunc (L : Nat) (l : List Char) : List Char :=
  if l.length < L then l ++ List.replicate (L - l.length) 'N' else l.take L

/-- `DNASequenceClassifier.one_hot_encode_sequence`
(train_model.py lines 17-41), with the instance's `sequence_length`
passed explicitly as `L`.  The returned numpy array is modelled as the
list of its rows. -/
def one_hot_encode_sequence (L : Nat) (sequence : String) : List (List Int) :=
  (padTrunc L (filteredSeq sequence)).map encodeBase

/-- A row is one of the four canonical one-hot basis vectors. -/
def isBasisRow (r : List Int) : Bool :=
  r == [1, 0, 0, 0] || r == [0, 1, 0, 0] || r == [0, 0, 1, 0] || r == [0, 0, 0, 1]

/- ## Structural lemmas about the encoder -/

theorem padTrunc_eq (L : Nat) (l : List Char) :
    padTrunc L l = l.take L ++ List.replicate (L - l.length) 'N' := by
  unfold padTrunc
  split
  · rw [List.take_of_length_le (Nat.le_of_lt (by assumption))]
  · have h : L - l.length = 0 := by omega
    rw [h, List.replicate_zero, List.append_nil]

theorem encodeBase_N : encodeBase 'N' = zeroRow := by decide

theorem one_hot_decomp (L : Nat) (s : String) :
    one_hot_encode_sequence L s =
      ((filteredSeq s).take L).map encodeBase ++
        List.replicate (L - (filteredSeq s).length) zeroRow := by
  unfold one_hot_encode_sequence
  rw [padTrunc_eq, List.map_append, List.map_replicate, encodeBase_N]

theorem length_padTrunc (L : Nat) (l : List Char) : (padTrunc L l).length = L := by
  rw [padTrunc_eq, List.length_append, List.length_take, List.length_replicate]
  omega

theorem encodeBase_length (c : Char) : (encodeBase c).length = 4 := by
  unfold encodeBase mapping
  split
  · rfl
  · split
    · rfl
    · split
      · rfl
      · split
        · rfl
        · rfl

theorem encodeBase_cases (c : Char) :
    isBasisRow (encodeBase c) = true ∨ encodeBase c = zeroRow := by
  unfold encodeBase mapping
  split
  · left; rfl
  · split
    · left; rfl
    · split
      · left; rfl
      · split
        · left; rfl
        · right; rfl

theorem isValidBase_cases {c : Char} (h : isValidBase c = true) :
    c = 'A' ∨ c = 'T' ∨ c = 'C' ∨ c = 'G' := by
  unfold isValidBase at h
  simp only [Bool.or_eq_true, beq_iff_eq] at h
  tauto

theorem isBasisRow_encodeBase {c : Char} (h : isValidBase c = true) :
    isBasisRow (encodeBase c) = true := by
  rcases isValidBase_cases h with h | h | h | h <;> subst h <;> decide

/-- `Char.toUpper` is idempotent. -/
theorem toUpper_toUpper (c : Char) : c.toUpper.toUpper = c.toUpper := by
  by_cases h : 97 ≤ c.toNat ∧ c.toNat ≤ 122
  · have hc := Char.ofNat_toNat c
    set n := c.toNat with hn
    rw [← hc]
    obtain ⟨h1, h2⟩ := h
    interval_cases n <;> decide
  · have hfix : c.toUpper = c := by
      unfold Char.toUpper
      rw [if_neg h]
    rw [hfix, hfix]

theorem toUpper_of_validBase {c : Char} (h : isValidBase c = true) :
    c.toUpper = c := by
  rcases isValidBase_cases h with h | h | h | h <;> subst h <;> decide

theorem mem_filteredSeq_valid {s : String} {c : Char} (h : c ∈ filteredSeq s) :
    isValidBase c = true :=
  List.of_mem_filter h

/- ## Claim theorems for the sequence encoder -/

/-- C1: for every input string `s` and every target length `L ≥ 0`,
`one_hot_encode_sequence` returns a matrix with exactly `L` rows and 4
columns, regardless of the length or content of `s`. -/
theorem C1_encoder_shape (L : Nat) (s : String) :
    (one_hot_encode_sequence L s).length = L ∧
      ∀ r ∈ one_hot_encode_sequence L s, r.length = 4 := by
  constructor
  · unfold one_hot_encode_sequence
    rw [List.length_map, length_padTrunc]
  · intro r hr
    unfold one_hot_encode_sequence at hr
    obtain ⟨c, _, hc⟩ := List.mem_map.mp hr
    rw [← hc]
    exact encodeBase_length c

/-- Witness for C1 at `L = 3`, `s = "aXg"`. -/
theorem C1_encoder_shape_witness :
    (one_hot_encode_sequence 3 "aXg").length = 3 ∧
      ∀ r ∈ one_hot_encode_sequence 3 "aXg", r.length = 4 :=
  C1_encoder_shape 3 "aXg"

/-- C2: every row of the encoder's output is one of exactly five vectors:
the four canonical one-hot basis vectors (for A, T, C, G) or the all-zero
vector. -/
theorem C2_encoder_rows (L : Nat) (s : String) :
    ∀ r ∈ one_hot_encode_sequence L s,
      r = [1, 0, 0, 0] ∨ r = [0, 1, 0, 0] ∨ r = [0, 0, 1, 0] ∨
        r = [0, 0, 0, 1] ∨ r = [0, 0, 0, 0] := by
  intro r hr
  obtain ⟨c, _, hc⟩ := List.mem_map.mp hr
  subst hc
  rcases encodeBase_cases c with h | h
  · unfold isBasisRow at h
    simp only [Bool.or_eq_true, beq_iff_eq] at h
    tauto
  · rw [h]
    right; right; right; right; rfl

/-- Witness for C2 at `L = 2`, `s = "aq"` (a one-hot row and a zero row). -/
theorem C2_encoder_rows_witness :
    ([1, 0, 0, 0] : List Int) ∈ one_hot_encode_sequence 2 "aq" ∧
      (([1, 0, 0, 0] : List Int) = [1, 0, 0, 0] ∨
        ([1, 0, 0, 0] : List Int) = [0, 1, 0, 0] ∨
        ([1, 0, 0, 0] : List Int) = [0, 0, 1, 0] ∨
        ([1, 0, 0, 0] : List Int) = [0, 0, 0, 1] ∨
        ([1, 0, 0, 0] : List Int) = [0, 0, 0, 0]) :=
  ⟨by decide, C2_encoder_rows 2 "aq" [1, 0, 0, 0] (by decide)⟩

/-- C5: non-ACGT characters are removed before padding, not replaced in
place: encoding `s` equals encoding the subsequence of `s` made of its
A/T/C/G characters after uppercasing. -/
theorem C5_filter_before_pad (L : Nat) (s : String) :
    one_hot_encode_sequence L s =
      one_hot_encode_sequence L (String.mk (filteredSeq s)) := by
  have hfix : filteredSeq (String.mk (filteredSeq s)) = filteredSeq s := by
    show ((filteredSeq s).map Char.toUpper).filter isValidBase = filteredSeq s
    have hmap : (filteredSeq s).map Char.toUpper = filteredSeq s := by
      rw [List.map_congr_left (fun c hc => toUpper_of_validBase
        (mem_filteredSeq_valid hc))]
      exact List.map_id' _
    rw [hmap]
    exact List.filter_eq_self.mpr (fun c hc => mem_filteredSeq_valid hc)
  unfold one_hot_encode_sequence
  rw [hfix]

/-- C6: encoding is case-insensitive: encoding `s` equals encoding the
uppercased `s`; in particular `"atcg"` and `"ATCG"` encode identically. -/
theorem C6_case_insensitive (L : Nat) (s : String) :
    one_hot_encode_sequence L s = one_hot_encode_sequence L (pyUpper s) := by
  have hfix : filteredSeq (pyUpper s) = filteredSeq s := by
    show ((s.data.map Char.toUpper).map Char.toUpper).filter isValidBase = _
    rw [List.map_map]
    have : s.data.map (Char.toUpper ∘ Char.toUpper) = s.data.map Char.toUpper :=
      List.map_congr_left (fun c _ => toUpper_toUpper c)
    rw [this]
    rfl
  unfold one_hot_encode_sequence
  rw [hfix]

/-- C7: with `L = 16`, encoding `"AAAATTTTCCCCGGGG"` yields exactly four A
rows, four T rows, four C rows and four G rows, with no all-zero row. -/
theorem C7_concrete_pattern :
    one_hot_encode_sequence 16 "AAAATTTTCCCCGGGG" =
      List.replicate 4 [1, 0, 0, 0] ++ List.replicate 4 [0, 1, 0, 0] ++
        List.replicate 4 [0, 0, 1, 0] ++ List.replicate 4 [0, 0, 0, 1] := by
  decide

/-- C9: the one-hot rows form exactly the prefix of length
`min k L` where `k` counts the A/T/C/G characters of the uppercased
input: every row before `min k L` is a basis vector and every row from
`min k L` up to `L` is the all-zero padding vector. -/
theorem C9_prefix_structure (L : Nat) (s : String) :
    (∀ i, i < min (filteredSeq s).length L →
      ∃ r, (one_hot_encode_sequence L s)[i]? = some r ∧ isBasisRow r = true) ∧
      ∀ i, min (filteredSeq s).length L ≤ i → i < L →
        (one_hot_encode_sequence L s)[i]? = some zeroRow := by
  have hlenA : (((filteredSeq s).take L).map encodeBase).length =
      min L (filteredSeq s).length := by
    rw [List.length_map, List.length_take]
  constructor
  · intro i hi
    have hiA : i < (((filteredSeq s).take L).map encodeBase).length := by
      rw [hlenA]; omega
    have hik : i < (filteredSeq s).length := by omega
    refine ⟨encodeBase (filteredSeq s)[i], ?_, ?_⟩
    · rw [one_hot_decomp, List.getElem?_append_left hiA, List.getElem?_map,
        List.getElem?_take_of_lt (by omega), List.getElem?_eq_getElem hik]
      rfl
    · exact isBasisRow_encodeBase
        (mem_filteredSeq_valid (List.getElem_mem hik))
  · intro i hmin hiL
    have hiA : (((filteredSeq s).take L).map encodeBase).length ≤ i := by
      rw [hlenA]; omega
    rw [one_hot_decomp, List.getElem?_append_right hiA, hlenA,
      List.getElem?_replicate, if_pos (by omega)]

/-- Witness for C9 at `L = 3`, `s = "ax"` (one valid character, two pads). -/
theorem C9_prefix_structure_witness :
    (∃ r, (one_hot_encode_sequence 3 "ax")[0]? = some r ∧ isBasisRow r = true) ∧
      (one_hot_encode_sequence 3 "ax")[1]? = some zeroRow := by
  have h := C9_prefix_structure 3 "ax"
  exact ⟨h.1 0 (by decide), h.2 1 (by decide) (by decide)⟩

/- ## The classifier pipeline state (train_model.py) -/

/-- Python exceptions raised by the pipeline methods. -/
inductive PyErr where
  | valueError (msg : String)
  | indexError (msg : String)
deriving DecidableEq, Repr

/-- The `DNASequenceClassifier` instance state (train_model.py lines 10-15).
The keras model held in `self.model` is of the abstract type `M`
(`none` embeds Python `None`); `label_encoder_classes` is the fitted
`classes_` vocabulary of the sklearn `LabelEncoder` (empty before any
`fit_transform`). -/
structure DNASequenceClassifier (M : Type) where
  sequence_length : Nat
  model : Option M
  label_encoder_classes : List String
  class_names : List String
deriving DecidableEq, Repr

/-- `DNASequenceClassifier.__init__` (train_model.py lines 11-15). -/
def DNASequenceClassifier.init (M : Type) (sequence_length : Nat := 1000) :
    DNASequenceClassifier M :=
  { sequence_length := sequence_length
    model := none
    label_encoder_classes := []
    class_names := ["Human", "Bacteria", "Virus", "Plant"] }

/-- `DNASequenceClassifier.evaluate` (train_model.py lines 148-154); the
keras `model.evaluate` call is the external parameter `run` returning
`(loss, accuracy)`. -/
def DNASequenceClassifier.evaluate {M : Type} (c : DNASequenceClassifier M)
    (run : M → List (List (List Int)) → List Nat → ℚ × ℚ)
    (X : List (List (List Int))) (y : List Nat) : Except PyErr (ℚ × ℚ) :=
  match c.model with
  | none => .error (.valueError "Model must be trained first")
  | some m => .ok (run m X y)

/-- Inner loop of `np.argmax`: scan the remaining entries keeping the index
of the first maximum seen so far. -/
def argmaxGo : List ℚ → Nat → Nat → ℚ → Nat
  | [], _, best, _ => best
  | x :: xs, i, best, bv =>
      if bv < x then argmaxGo xs (i + 1) i x else argmaxGo xs (i + 1) best bv

/-- `np.argmax` on a probability vector: index of the first maximal entry
(0 on the empty list, which numpy instead rejects; the pipeline only
applies it to the 4-way softmax output). -/
def np_argmax : List ℚ → Nat
  | [] => 0
  | x :: xs => argmaxGo xs 1 0 x

/-- The dictionary returned by `predict` (train_model.py lines 168-175);
`predicted_class` holds the `'class'` entry (the word `class` is reserved
here), and `all_probabilities` is the dict in insertion order. -/
structure PredictResult where
  predicted_class : String
  confidence : ℚ
  all_probabilities : List (String × ℚ)
deriving DecidableEq, Repr

/-- `DNASequenceClassifier.predict` (train_model.py lines 156-175).  The
keras `model.predict` call on the singleton batch is the external
parameter `infer`, giving the probability row `predictions[0]`; list
indexing out of range models the corresponding Python `IndexError`. -/
def DNASequenceClassifier.predict {M : Type} (c : DNASequenceClassifier M)
    (infer : M → List (List Int) → List ℚ) (sequence : String) :
    Except PyErr PredictResult :=
  match c.model with
  | none => .error (.valueError "Model must be trained first")
  | some m =>
      let probs := infer m (one_hot_encode_sequence c.sequence_length sequence)
      let predicted_class := np_argmax probs
      match probs[predicted_class]?,
        c.label_encoder_classes[predicted_class]?,
        probs.enum.mapM (fun p => (c.class_names[p.1]?).map (fun n => (n, p.2))) with
      | some confidence, some name, some ap =>
          .ok { predicted_class := name
                confidence := confidence
                all_probabilities := ap }
      | _, _, _ => .error (.indexError "index out of range")

/-- The sidecar record `model_info` written by `save_model`
(train_model.py lines 190-194). -/
structure ModelInfo where
  class_names : List String
  sequence_length : Nat
  label_encoder_classes : List String
deriving DecidableEq, Repr

/-- `DNASequenceClassifier.save_model` (train_model.py lines 177-199); the
h5 save and the tensorflowjs conversion are external, so the observable
result is the metadata record it writes. -/
def DNASequenceClassifier.save_model {M : Type} (c : DNASequenceClassifier M)
    (model_path : String) : Except PyErr ModelInfo :=
  match c.model with
  | none => .error (.valueError "No model to save")
  | some _ =>
      .ok { class_names := c.class_names
            sequence_length := c.sequence_length
            label_encoder_classes := c.label_encoder_classes }

theorem argmaxGo_lt (xs : List ℚ) : ∀ (i best : Nat) (bv : ℚ),
    argmaxGo xs i best bv < i + xs.length ∨ argmaxGo xs i best bv = best := by
  induction xs with
  | nil =>
      intro i best bv
      right
      rfl
  | cons x xs ih =>
      intro i best bv
      simp only [argmaxGo]
      by_cases h : bv < x
      · rw [if_pos h]
        rcases ih (i + 1) i x with h2 | h2
        · left
          simp only [List.length_cons]
          omega
        · left
          rw [h2]
          simp only [List.length_cons]
          omega
      · rw [if_neg h]
        rcases ih (i + 1) best bv with h2 | h2
        · left
          simp only [List.length_cons]
          omega
        · right
          exact h2

theorem np_argmax_lt_length {l : List ℚ} (h : l ≠ []) : np_argmax l < l.length := by
  cases l with
  | nil => exact absurd rfl h
  | cons x xs =>
      simp only [np_argmax, List.length_cons]
      rcases argmaxGo_lt xs 1 0 x with h2 | h2 <;> omega

/-- C4: on a pipeline instance that has not been trained (`model` is
`None`), each of `evaluate`, `predict` and `save_model` raises a
`ValueError` instead of returning a result. -/
theorem C4_untrained_errors {M : Type} (c : DNASequenceClassifier M)
    (run : M → List (List (List Int)) → List Nat → ℚ × ℚ)
    (infer : M → List (List Int) → List ℚ)
    (X : List (List (List Int))) (y : List Nat) (s path : String)
    (h : c.model = none) :
    c.evaluate run X y = .error (.valueError "Model must be trained first") ∧
      c.predict infer s = .error (.valueError "Model must be trained first") ∧
      c.save_model path = .error (.valueError "No model to save") := by
  unfold DNASequenceClassifier.evaluate DNASequenceClassifier.predict
    DNASequenceClassifier.save_model
  rw [h]
  exact ⟨rfl, rfl, rfl⟩

/-- Witness for C4: a freshly constructed classifier is untrained and all
three operations fail. -/
theorem C4_untrained_errors_witness :
    (DNASequenceClassifier.init Unit).evaluate (fun _ _ _ => (0, 0)) [] [] =
        .error (.valueError "Model must be trained first") ∧
      (DNASequenceClassifier.init Unit).predict (fun _ _ => []) "ACGT" =
        .error (.valueError "Model must be trained first") ∧
      (DNASequenceClassifier.init Unit).save_model "models/dna_classifier" =
        .error (.valueError "No model to save") :=
  C4_untrained_errors (DNASequenceClassifier.init Unit) (fun _ _ _ => (0, 0))
    (fun _ _ => []) [] [] "ACGT" "models/dna_classifier" rfl

/-- C10: on a trained instance, the `all_probabilities` mapping returned by
`predict` is keyed by the constructor list
`class_names = ["Human", "Bacteria", "Virus", "Plant"]` in that exact
order (output index `i` is paired with `class_names[i]`), independent of
the fitted label encoder's vocabulary, while the `'class'` field inverts
the arg-max index through the fitted label encoder — two distinct
orderings. -/
theorem C10_probability_keys {M : Type} (c : DNASequenceClassifier M) (m : M)
    (infer : M → List (List Int) → List ℚ) (s : String)
    (hm : c.model = some m)
    (hnames : c.class_names = ["Human", "Bacteria", "Virus", "Plant"])
    (hlen : (infer m (one_hot_encode_sequence c.sequence_length s)).length = 4)
    (hargmax : np_argmax (infer m (one_hot_encode_sequence c.sequence_length s)) <
      c.label_encoder_classes.length) :
    ∃ r, c.predict infer s = .ok r ∧
      r.all_probabilities.map Prod.fst = ["Human", "Bacteria", "Virus", "Plant"] ∧
      r.all_probabilities.map Prod.snd =
        infer m (one_hot_encode_sequence c.sequence_length s) ∧
      c.label_encoder_classes[np_argmax
        (infer m (one_hot_encode_sequence c.sequence_length s))]? =
        some r.predicted_class := by
  simp only [DNASequenceClassifier.predict, hm]
  generalize hprobs :
    infer m (one_hot_encode_sequence c.sequence_length s) = probs at hlen hargmax ⊢
  obtain ⟨p0, p1, p2, p3, rfl⟩ : ∃ a b u d, probs = [a, b, u, d] := by
    rcases probs with _ | ⟨a, probs⟩
    · simp at hlen
    rcases probs with _ | ⟨b, probs⟩
    · simp at hlen
    rcases probs with _ | ⟨u, probs⟩
    · simp at hlen
    rcases probs with _ | ⟨d, probs⟩
    · simp at hlen
    rcases probs with _ | ⟨e, probs⟩
    · exact ⟨a, b, u, d, rfl⟩
    · simp at hlen
  have hpc : np_argmax [p0, p1, p2, p3] < 4 :=
    np_argmax_lt_length (by simp)
  obtain ⟨conf, hconf⟩ : ∃ v, ([p0, p1, p2, p3][np_argmax [p0, p1, p2, p3]]? :
      Option ℚ) = some v :=
    ⟨_, List.getElem?_eq_getElem (by simpa using hpc)⟩
  obtain ⟨name, hname⟩ :
      ∃ n, c.label_encoder_classes[np_argmax [p0, p1, p2, p3]]? = some n :=
    ⟨_, List.getElem?_eq_getElem hargmax⟩
  have hmapM : ([p0, p1, p2, p3] : List ℚ).enum.mapM
      (fun p => (c.class_names[p.1]?).map (fun n => (n, p.2))) =
        some [("Human", p0), ("Bacteria", p1), ("Virus", p2), ("Plant", p3)] := by
    simp [hnames, List.enum, List.enumFrom, List.mapM, List.mapM.loop]
  rw [hconf, hname, hmapM]
  exact ⟨_, rfl, rfl, rfl, rfl⟩

/-- Witness for C10: a trained classifier whose fitted label vocabulary is
alphabetically sorted, so the `'class'` naming and the probability-key
naming visibly disagree. -/
theorem C10_probability_keys_witness :
    ∃ r, (DNASequenceClassifier.mk 4 (some ())
        ["Bacteria", "Human", "Plant", "Virus"]
        ["Human", "Bacteria", "Virus", "Plant"]).predict
          (fun _ _ => ([0, 1, 0, 0] : List ℚ)) "ACGT" = .ok r ∧
      r.all_probabilities.map Prod.fst = ["Human", "Bacteria", "Virus", "Plant"] ∧
      r.all_probabilities.map Prod.snd = [0, 1, 0, 0] ∧
      (["Bacteria", "Human", "Plant", "Virus"] :
        List String)[np_argmax ([0, 1, 0, 0] : List ℚ)]? =
        some r.predicted_class :=
  C10_probability_keys
    (DNASequenceClassifier.mk 4 (some ()) ["Bacteria", "Human", "Plant", "Virus"]
      ["Human", "Bacteria", "Virus", "Plant"])
    () (fun _ _ => ([0, 1, 0, 0] : List ℚ)) "ACGT" rfl rfl rfl (by decide)

/- ## The model bootstrap (check_model.py) -/

/-- State of the `models/` directory seen by the bootstrap: the contents of
`model.json` and of `weights.bin` when those files exist.  The containing
directory itself always exists after the `os.makedirs(..., exist_ok=True)`
call, so it needs no separate flag. -/
structure ModelsDir where
  model_json : Option String
  weights_bin : Option (List Nat)
deriving DecidableEq, Repr

/-- The manifest the external tensorflowjs converter writes for the
placeholder model; per the spec it is a well-formed JSON manifest
describing the network graph and weights layout. -/
def placeholderManifest : String := "\x7b\"format\": \"layers-model\"\x7d"

/-- The binary weights blob the converter writes: non-empty, since the
placeholder model has real (randomly initialised) parameters. -/
def placeholderWeights : List Nat := [0, 0, 0, 0]

/-- Models the external call
`tfjs.converters.save_keras_model(model, 'models/')`: it persists a
manifest and a weights artifact into the directory, overwriting previous
contents. -/
def tfjs_save_keras_model (_ : ModelsDir) : ModelsDir :=
  { model_json := some placeholderManifest
    weights_bin := some placeholderWeights }

/-- `create_simple_model` (check_model.py lines 39-61): builds and compiles
a small keras model (no directory effect) and saves it through the
converter. -/
def create_simple_model (d : ModelsDir) : ModelsDir := tfjs_save_keras_model d

/-- `check_and_create_model` (check_model.py lines 6-37) as a transformer
of the directory state.  `json_load_ok content` models whether
`json.load` succeeds on the manifest text `content`.  The first branch is
the existence check on `model.json`; the `try` block then opens and
parses the manifest (any exception triggers `create_simple_model`); the
weights-file branch inside the `try` only prints its findings and never
modifies the directory. -/
def check_and_create_model (json_load_ok : String → Bool) (d : ModelsDir) :
    ModelsDir :=
  let d1 := if d.model_json.isNone then create_simple_model d else d
  match d1.model_json with
  | none => create_simple_model d1
  | some content => if json_load_ok content then d1 else create_simple_model d1

/-- C3 counterexample: when a parseable manifest is present but the weights
artifact is missing, `check_and_create_model` leaves the directory
unchanged — it does not synthesize a placeholder bundle, so afterwards no
loadable bundle exists (`weights.bin` is still missing). -/
theorem C3_weights_not_repaired :
    check_and_create_model (fun _ => true)
        { model_json := some placeholderManifest, weights_bin := none } =
      { model_json := some placeholderManifest, weights_bin := none } ∧
      (check_and_create_model (fun _ => true)
        { model_json := some placeholderManifest, weights_bin := none }).weights_bin
        = none := by
  constructor
  · rfl
  · rfl

/-- C3 (amended): `check_and_create_model` verifies that the manifest file
exists and parses; if the manifest is missing or unparseable it
synthesizes and persists the placeholder bundle.  The weights check only
reports existence and size: a missing or empty weights artifact with a
parseable manifest triggers no regeneration, so only the manifest — not
a full loadable bundle — is guaranteed afterwards. -/
theorem C3_manifest_checked (json_load_ok : String → Bool) (d : ModelsDir)
    (hp : json_load_ok placeholderManifest = true) :
    (∃ content, (check_and_create_model json_load_ok d).model_json = some content ∧
        json_load_ok content = true) ∧
      (d.model_json = none →
        check_and_create_model json_load_ok d =
          { model_json := some placeholderManifest
            weights_bin := some placeholderWeights }) ∧
      (∀ content, d.model_json = some content → json_load_ok content = false →
        check_and_create_model json_load_ok d =
          { model_json := some placeholderManifest
            weights_bin := some placeholderWeights }) ∧
      (∀ content, d.model_json = some content → json_load_ok content = true →
        check_and_create_model json_load_ok d = d) := by
  rcases d with ⟨mj, wb⟩
  rcases mj with _ | content
  · refine ⟨⟨placeholderManifest, ?_, hp⟩, fun _ => ?_, fun content h => ?_, fun content h => ?_⟩ <;>
      simp_all [check_and_create_model, create_simple_model, tfjs_save_keras_model]
  · by_cases hc : json_load_ok content = true
    · refine ⟨⟨content, ?_, hc⟩, fun h => ?_, fun u hu hfalse => ?_, fun u hu _ => ?_⟩ <;>
        simp_all [check_and_create_model, create_simple_model, tfjs_save_keras_model]
    · refine ⟨⟨placeholderManifest, ?_, hp⟩, fun h => ?_, fun u hu hfalse => ?_,
        fun u hu htrue => ?_⟩ <;>
        simp_all [check_and_create_model, create_simple_model, tfjs_save_keras_model]

/-- Witness for the amended C3: a directory already holding the placeholder
bundle is left exactly as it is. -/
theorem C3_manifest_checked_witness :
    check_and_create_model (fun _ => true)
        { model_json := some placeholderManifest
          weights_bin := some placeholderWeights } =
      { model_json := some placeholderManifest
        weights_bin := some placeholderWeights } :=
  (C3_manifest_checked (fun _ => true)
      { model_json := some placeholderManifest
        weights_bin := some placeholderWeights } rfl).2.2.2
    placeholderManifest rfl rfl

/-- C8: from an empty directory, one bootstrap run produces a parseable
manifest and a non-empty weights artifact, and a second run on the
populated directory returns it unchanged. -/
theorem C8_bootstrap_idempotent (json_load_ok : String → Bool)
    (hp : json_load_ok placeholderManifest = true) :
    (∃ content,
      (check_and_create_model json_load_ok ⟨none, none⟩).model_json = some content ∧
        json_load_ok content = true) ∧
      (∃ w, (check_and_create_model json_load_ok ⟨none, none⟩).weights_bin = some w ∧
        w ≠ []) ∧
      check_and_create_model json_load_ok
          (check_and_create_model json_load_ok ⟨none, none⟩) =
        check_and_create_model json_load_ok ⟨none, none⟩ := by
  have h1 : check_and_create_model json_load_ok ⟨none, none⟩ =
      { model_json := some placeholderManifest
        weights_bin := some placeholderWeights } := by
    simp [check_and_create_model, create_simple_model, tfjs_save_keras_model, hp]
  rw [h1]
  refine ⟨⟨placeholderManifest, rfl, hp⟩,
    ⟨placeholderWeights, rfl, by decide⟩, ?_⟩
  simp [check_and_create_model, hp]

/-- Witness for C8 with the trivially succeeding JSON parser. -/
theorem C8_bootstrap_idempotent_witness :
    check_and_create_model (fun _ => true)
        (check_and_create_model (fun _ => true) ⟨none, none⟩) =
      check_and_create_model (fun _ => true) ⟨none, none⟩ :=
  (C8_bootstrap_idempotent (fun _ => true) rfl).2.2

end DNA
